import Mathlib

/-!
Shallow embedding of `src/utils/tty.rs`: terminal detection and VT100
enablement for stdout/stderr, with a per-stream memoized query.

OS calls are modelled as fields of environment structures; machine
words (DWORD, HANDLE, WCHAR) are modelled as `Nat` (a null HANDLE is 0).
Wide-character strings are lists of UTF-16 code units (`List Nat`).
-/

/-! ### Windows constants (winapi) -/

def ENABLE_VIRTUAL_TERMINAL_PROCESSING : Nat := 4

def FILE_TYPE_PIPE : Nat := 3

def STD_OUTPUT_HANDLE : Nat := 4294967285

def STD_ERROR_HANDLE : Nat := 4294967284

/-! ### Wide strings -/

/-- The UTF-16 code units of an ASCII string literal (each ASCII char is one
code unit whose value is its code point). Used to write the emulator
pipe-name patterns of `is_win_console_emulators` as wide-unit lists. -/
def wstr (s : String) : List Nat := s.toList.map Char.toNat

/-- Rust `str::starts_with(pat)` on wide-unit lists: `starts_with name pat`
is true iff `pat` is a (case-sensitive) leading segment of `name`. -/
def starts_with : List Nat → List Nat → Bool
  | _, [] => true
  | [], _ :: _ => false
  | a :: s, b :: p => (a == b) && starts_with s p

/-! ### The Windows probe (`mod win` in tty.rs) -/

/-- The `FileNameInfo` struct of tty.rs: a DWORD byte length followed by a
fixed buffer of 2040 WCHARs (the fixed size is recorded by `hbuf`). -/
structure FileNameInfo where
  FileNameLength : Nat
  FileName : List Nat
  hbuf : FileName.length = 2040

/-- The OS facilities the Windows probe consumes, as pure oracles:
`GetStdHandle` resolves a stream id to a handle (0 = null);
`GetConsoleMode` returns the current mode on success, `none` on failure;
`SetConsoleMode` reports success of setting a mode; `GetFileType` returns
the handle's file type; `GetFileInformationByHandleEx` (with the
`FileNameInfo` class and a 2040-WCHAR buffer) returns the filled struct on
success, `none` on failure. -/
structure WinEnv where
  GetStdHandle : Nat → Nat
  GetConsoleMode : Nat → Option Nat
  SetConsoleMode : Nat → Nat → Bool
  GetFileType : Nat → Nat
  GetFileInformationByHandleEx : Nat → Option FileNameInfo

/-- Outcome of `get_file_name_by_handle`: a retrieved wide name
(`Option::Some`), a failed query (`Option::None`), or an out-of-bounds
slice index `FileNameLength / 2 > 2040`, on which the Rust code would
panic rather than read past the buffer. -/
inductive NameQuery
  | name (w : List Nat)
  | noName
  | oob
deriving DecidableEq

/-- The slice `&name_buf.FileName[0..(FileNameLength / 2)]` of
`get_file_name_by_handle` (byte length divided by `size_of::<WCHAR>()`),
with Rust's bounds check made explicit. -/
def extract_name (info : FileNameInfo) : NameQuery :=
  if info.FileNameLength / 2 ≤ info.FileName.length then
    NameQuery.name (info.FileName.take (info.FileNameLength / 2))
  else
    NameQuery.oob

/-- `get_file_name_by_handle` of tty.rs: query
`GetFileInformationByHandleEx`; on failure (`res == 0`) return `None`,
otherwise slice the first `FileNameLength / 2` wide chars out of the
buffer. -/
def get_file_name_by_handle (env : WinEnv) (handle : Nat) : NameQuery :=
  match env.GetFileInformationByHandleEx handle with
  | Option.none => NameQuery.noName
  | Option.some info => extract_name info

/-- `is_win_console_emulators` of tty.rs: a retrieved name is an emulator
pipe iff it starts with `\ConEmuHk`, `\cygwin-` or `\msys-`; a failed name
query is `false`. (`none` propagates the slice panic of `extract_name`.) -/
def is_win_console_emulators (env : WinEnv) (handle : Nat) : Option Bool :=
  match get_file_name_by_handle env handle with
  | NameQuery.name nm =>
      Option.some (starts_with nm (wstr "\\ConEmuHk")
        || starts_with nm (wstr "\\cygwin-")
        || starts_with nm (wstr "\\msys-"))
  | NameQuery.noName => Option.some false
  | NameQuery.oob => Option.none

/-- `win::isatty` of tty.rs: resolve the handle (null ⇒ false); if
`GetConsoleMode` succeeds, the result is the success of enabling
`ENABLE_VIRTUAL_TERMINAL_PROCESSING` on top of the current mode; otherwise
a non-pipe file type ⇒ false, and a pipe is classified by
`is_win_console_emulators`. -/
def win_isatty (env : WinEnv) (fd : Nat) : Option Bool :=
  let handle := env.GetStdHandle fd
  if handle = 0 then
    Option.some false
  else
    match env.GetConsoleMode handle with
    | Option.some console_mode =>
        Option.some (env.SetConsoleMode handle
          (console_mode ||| ENABLE_VIRTUAL_TERMINAL_PROCESSING))
    | Option.none =>
        if env.GetFileType handle ≠ FILE_TYPE_PIPE then
          Option.some false
        else
          is_win_console_emulators env handle

/-! ### The unix probe -/

def STDOUT_FILENO : Int := 1

def STDERR_FILENO : Int := 2

/-- The one OS facility of the unix probe: `libc::isatty`, returning a
C int (1 = attached to a terminal). -/
structure UnixEnv where
  isatty_c : Int → Int

/-- The `#[cfg(unix)] fn isatty` of tty.rs: `libc::isatty(fd) == 1`. -/
def unix_isatty (env : UnixEnv) (fd : Int) : Bool :=
  env.isatty_c fd == 1

/-! ### The memoized queries (`lazy_static` cells) -/

/-- The two `Lazy<bool>` statics `MEMOIZED_STDOUT_IS_TTY` and
`MEMOIZED_STDERR_IS_TTY`: each either not yet computed or holding a
boolean. -/
structure TtyCache where
  memo_stdout : Option Bool
  memo_stderr : Option Bool
deriving DecidableEq

/-- Both cells start at `Lazy::INIT` (nothing computed). -/
def initCache : TtyCache := TtyCache.mk Option.none Option.none

/-- `Lazy::get(f)` under sequential access: return the cached value when
present, else run the thunk and fill the cell. The third component counts
how often the thunk ran during this call. -/
def lazy_get (cell : Option Bool) (f : Unit → Bool) :
    Bool × Option Bool × Nat :=
  match cell with
  | Option.some v => (v, Option.some v, 0)
  | Option.none =>
      let v := f ()
      (v, Option.some v, 1)

/-- `stdout_isatty` of tty.rs: `MEMOIZED_STDOUT_IS_TTY.get(|| isatty(STDOUT_FD))`,
with `probe` standing for the platform `isatty` closure. Returns the
result, the updated cells and the probe-invocation count. -/
def stdout_isatty (probe : Unit → Bool) (st : TtyCache) :
    Bool × TtyCache × Nat :=
  let r := lazy_get st.memo_stdout probe
  (r.1, TtyCache.mk r.2.1 st.memo_stderr, r.2.2)

/-- `stderr_isatty` of tty.rs: `MEMOIZED_STDERR_IS_TTY.get(|| isatty(STDERR_FD))`. -/
def stderr_isatty (probe : Unit → Bool) (st : TtyCache) :
    Bool × TtyCache × Nat :=
  let r := lazy_get st.memo_stderr probe
  (r.1, TtyCache.mk st.memo_stdout r.2.1, r.2.2)

/-- `n` sequential calls of `stdout_isatty`: the list of results, the final
cache, and the total number of probe invocations. -/
def run_stdout (probe : Unit → Bool) : Nat → TtyCache → List Bool × TtyCache × Nat
  | 0, st => ([], st, 0)
  | Nat.succ n, st =>
      let r := stdout_isatty probe st
      let rest := run_stdout probe n r.2.1
      (r.1 :: rest.1, rest.2.1, r.2.2 + rest.2.2)

/-- `n` sequential calls of `stderr_isatty`. -/
def run_stderr (probe : Unit → Bool) : Nat → TtyCache → List Bool × TtyCache × Nat
  | 0, st => ([], st, 0)
  | Nat.succ n, st =>
      let r := stderr_isatty probe st
      let rest := run_stderr probe n r.2.1
      (r.1 :: rest.1, rest.2.1, r.2.2 + rest.2.2)

/-! ### Helper lemmas -/

/-- Any list starts with the empty pattern. -/
lemma starts_with_nil (s : List Nat) : starts_with s [] = true := by
  cases s <;> rfl

/-- Executable `starts_with` agrees with the prefix relation. -/
lemma starts_with_eq_true_iff (s p : List Nat) :
    starts_with s p = true ↔ p <+: s := by
  induction p generalizing s with
  | nil => simp [starts_with_nil]
  | cons b p ih =>
    cases s with
    | nil =>
      rw [show starts_with [] (b :: p) = false from rfl]
      simp [List.prefix_nil]
    | cons a s =>
      rw [show starts_with (a :: s) (b :: p) = ((a == b) && starts_with s p)
        from rfl]
      rw [Bool.and_eq_true, beq_iff_eq, ih, List.cons_prefix_cons]
      exact ⟨fun h => ⟨h.1.symm, h.2⟩, fun h => ⟨h.1.symm, h.2⟩⟩

/-- Negative form of `starts_with_eq_true_iff`. -/
lemma starts_with_eq_false_iff (s p : List Nat) :
    starts_with s p = false ↔ ¬ p <+: s := by
  rw [← starts_with_eq_true_iff]
  cases starts_with s p <;> simp

/-- On a successful info query whose reported byte length respects the
buffer passed to the OS call, the name extraction takes the first
`FileNameLength / 2` wide chars. -/
lemma get_name_success (env : WinEnv) (handle : Nat) (info : FileNameInfo)
    (hf : env.GetFileInformationByHandleEx handle = Option.some info)
    (hlen : info.FileNameLength ≤ 4080) :
    get_file_name_by_handle env handle =
      NameQuery.name (info.FileName.take (info.FileNameLength / 2)) := by
  have hk : info.FileNameLength / 2 ≤ info.FileName.length := by
    rw [info.hbuf]; omega
  simp [get_file_name_by_handle, hf, extract_name, hk]

/-! ### Concrete sample data for witnesses -/

/-- The fixed buffer always has 2040 entries. -/
lemma len_replicate_2040 (a : Nat) : (List.replicate 2040 a).length = 2040 := by
  rw [List.length_replicate]

/-- A padded sample buffer has 2040 entries when the name part and the
padding count add up to 2040. -/
lemma len_pad_2040 (s : String) (n : Nat) (h : s.toList.length + n = 2040) :
    (wstr s ++ List.replicate n (0 : Nat)).length = 2040 := by
  simp only [wstr, List.length_append, List.length_map, List.length_replicate]
  exact h

/-- On a padded sample buffer whose reported byte length is twice the
name's character count, the extraction returns exactly the name part. -/
lemma get_name_pad (env : WinEnv) (handle : Nat) (s : String) (n : Nat)
    (info : FileNameInfo)
    (hf : env.GetFileInformationByHandleEx handle = Option.some info)
    (hinfo : info.FileName = wstr s ++ List.replicate n 0)
    (hL : info.FileNameLength = 2 * s.toList.length) :
    get_file_name_by_handle env handle = NameQuery.name (wstr s) := by
  have hlen : info.FileNameLength ≤ 4080 := by
    have hb := info.hbuf
    rw [hinfo] at hb
    simp only [List.length_append, List.length_replicate, wstr,
      List.length_map] at hb
    omega
  have h := get_name_success env handle info hf hlen
  rw [h, hinfo, hL]
  have h2 : 2 * s.toList.length / 2 = (wstr s).length := by
    simp only [wstr, List.length_map]
    omega
  rw [h2, List.take_left]

/-- A ConEmu pty pipe name padded to the 2040-WCHAR buffer. -/
def infoConEmu : FileNameInfo :=
  FileNameInfo.mk 26 (wstr "\\ConEmuHk1234" ++ List.replicate 2027 0)
    (len_pad_2040 "\\ConEmuHk1234" 2027 (by rfl))

/-- An ordinary anonymous pipe name padded to the buffer. -/
def infoRandom : FileNameInfo :=
  FileNameInfo.mk 38 (wstr "\\\\.\\pipe\\randomname" ++ List.replicate 2021 0)
    (len_pad_2040 "\\\\.\\pipe\\randomname" 2021 (by rfl))

/-- A name that contains `\cygwin-` without starting with it. -/
def infoContains : FileNameInfo :=
  FileNameInfo.mk 26 (wstr "X\\cygwin-pty0" ++ List.replicate 2027 0)
    (len_pad_2040 "X\\cygwin-pty0" 2027 (by rfl))

/-- A successful query reporting a zero-length name. -/
def infoEmpty : FileNameInfo :=
  FileNameInfo.mk 0 (List.replicate 2040 0) (len_replicate_2040 0)

/-- A successful query reporting the maximal in-bounds byte length 4080. -/
def infoMax : FileNameInfo :=
  FileNameInfo.mk 4080 (List.replicate 2040 65) (len_replicate_2040 65)

/-- A corrupt query reporting a byte length beyond the buffer. -/
def infoOOB : FileNameInfo :=
  FileNameInfo.mk 9999 (List.replicate 2040 0) (len_replicate_2040 0)

/-- Every std-handle resolves to null; every other call fails. -/
def envNull : WinEnv :=
  WinEnv.mk (fun _ => 0) (fun _ => Option.none) (fun _ _ => true) (fun _ => 0)
    (fun _ => Option.none)

/-- A real console whose `SetConsoleMode` accepts the VT flag; the file
info oracle is deliberately corrupt to show it is never consulted. -/
def envConsoleOk : WinEnv :=
  WinEnv.mk (fun _ => 7) (fun _ => Option.some 3) (fun _ _ => true) (fun _ => 3)
    (fun _ => Option.some infoOOB)

/-- A legacy console: mode query succeeds but `SetConsoleMode` rejects the
VT flag; the pipe oracles would classify it as a ConEmu pipe. -/
def envConsoleBad : WinEnv :=
  WinEnv.mk (fun _ => 7) (fun _ => Option.some 3) (fun _ _ => false) (fun _ => 3)
    (fun _ => Option.some infoConEmu)

/-- A redirection to a disk file (type 1): the name oracle would report a
ConEmu name, showing name retrieval is not consulted. -/
def envFileRedirect : WinEnv :=
  WinEnv.mk (fun _ => 7) (fun _ => Option.none) (fun _ _ => true) (fun _ => 1)
    (fun _ => Option.some infoConEmu)

/-- A pipe whose name is a ConEmu pty pipe name. -/
def envPipeConEmu : WinEnv :=
  WinEnv.mk (fun _ => 7) (fun _ => Option.none) (fun _ _ => true) (fun _ => 3)
    (fun _ => Option.some infoConEmu)

/-- A pipe whose name is an ordinary pipe name. -/
def envPipeRandom : WinEnv :=
  WinEnv.mk (fun _ => 7) (fun _ => Option.none) (fun _ _ => true) (fun _ => 3)
    (fun _ => Option.some infoRandom)

/-- A pipe whose name contains but does not start with `\cygwin-`. -/
def envPipeContains : WinEnv :=
  WinEnv.mk (fun _ => 7) (fun _ => Option.none) (fun _ _ => true) (fun _ => 3)
    (fun _ => Option.some infoContains)

/-- A pipe whose name query fails. -/
def envPipeNoName : WinEnv :=
  WinEnv.mk (fun _ => 7) (fun _ => Option.none) (fun _ _ => true) (fun _ => 3)
    (fun _ => Option.none)

/-- A pipe whose name query succeeds with a zero-length name. -/
def envPipeEmpty : WinEnv :=
  WinEnv.mk (fun _ => 7) (fun _ => Option.none) (fun _ _ => true) (fun _ => 3)
    (fun _ => Option.some infoEmpty)

/-- A pipe whose name query reports the maximal in-bounds length. -/
def envPipeMax : WinEnv :=
  WinEnv.mk (fun _ => 7) (fun _ => Option.none) (fun _ _ => true) (fun _ => 3)
    (fun _ => Option.some infoMax)

/-- A unix environment: only descriptor 1 is a terminal. -/
def unixEnvSample : UnixEnv :=
  UnixEnv.mk (fun fd => if fd = 1 then 1 else 0)

/-! ### Claims -/

/-- C1: whenever `GetConsoleMode` succeeds on the non-null resolved handle,
`win_isatty` returns exactly the success of `SetConsoleMode` with the
current mode OR'd with `ENABLE_VIRTUAL_TERMINAL_PROCESSING` — in
particular `false` when that call fails — independently of the file-type
and pipe-name oracles. -/
theorem c1_console_vt_mode (env : WinEnv) (fd : Nat)
    (hnz : env.GetStdHandle fd ≠ 0) (m : Nat)
    (hm : env.GetConsoleMode (env.GetStdHandle fd) = Option.some m) :
    win_isatty env fd =
      Option.some (env.SetConsoleMode (env.GetStdHandle fd)
        (m ||| ENABLE_VIRTUAL_TERMINAL_PROCESSING)) := by
  simp [win_isatty, hnz, hm]

/-- C1 witness: a console accepting the VT flag yields `true`; a legacy
console rejecting it yields `false` (even though its pipe-name oracle
would have matched ConEmu). -/
theorem c1_console_vt_mode_witness :
    win_isatty envConsoleOk STD_OUTPUT_HANDLE = Option.some true ∧
    win_isatty envConsoleBad STD_OUTPUT_HANDLE = Option.some false := by
  constructor
  · exact (c1_console_vt_mode envConsoleOk STD_OUTPUT_HANDLE (by decide) 3
      rfl).trans rfl
  · exact (c1_console_vt_mode envConsoleBad STD_OUTPUT_HANDLE (by decide) 3
      rfl).trans rfl

/-- C2: when the pipe name is retrieved, `is_win_console_emulators` is
`true` exactly when the name starts (case-sensitively) with one of the
three prefixes `\ConEmuHk`, `\cygwin-`, `\msys-`, and `false` for every
other name. -/
theorem c2_emulator_name_patterns (env : WinEnv) (handle : Nat)
    (nm : List Nat)
    (h : get_file_name_by_handle env handle = NameQuery.name nm) :
    (is_win_console_emulators env handle = Option.some true ↔
      (wstr "\\ConEmuHk" <+: nm ∨ wstr "\\cygwin-" <+: nm ∨
        wstr "\\msys-" <+: nm)) ∧
    (is_win_console_emulators env handle = Option.some false ↔
      ¬(wstr "\\ConEmuHk" <+: nm ∨ wstr "\\cygwin-" <+: nm ∨
        wstr "\\msys-" <+: nm)) := by
  unfold is_win_console_emulators
  rw [h]
  constructor
  · simp [starts_with_eq_true_iff, or_assoc]
  · simp [starts_with_eq_false_iff, not_or, and_assoc]

/-- C2 witness: a ConEmu pty name matches; an ordinary pipe name and a
name merely containing `\cygwin-` do not. -/
theorem c2_emulator_name_patterns_witness :
    is_win_console_emulators envPipeConEmu 7 = Option.some true ∧
    is_win_console_emulators envPipeRandom 7 = Option.some false ∧
    is_win_console_emulators envPipeContains 7 = Option.some false := by
  refine ⟨?_, ?_, ?_⟩
  · exact (c2_emulator_name_patterns envPipeConEmu 7 (wstr "\\ConEmuHk1234")
      (get_name_pad envPipeConEmu 7 "\\ConEmuHk1234" 2027 infoConEmu rfl rfl
        rfl)).1.mpr (Or.inl (by decide))
  · exact (c2_emulator_name_patterns envPipeRandom 7
      (wstr "\\\\.\\pipe\\randomname")
      (get_name_pad envPipeRandom 7 "\\\\.\\pipe\\randomname" 2021 infoRandom
        rfl rfl rfl)).2.mpr (by decide)
  · exact (c2_emulator_name_patterns envPipeContains 7 (wstr "X\\cygwin-pty0")
      (get_name_pad envPipeContains 7 "X\\cygwin-pty0" 2027 infoContains rfl rfl
        rfl)).2.mpr (by decide)

/-- Helper for C3: when the name-fit contract of the OS call holds, the
emulator classification always produces a boolean. -/
lemma is_win_console_emulators_total (env : WinEnv) (handle : Nat)
    (hwf : ∀ info, env.GetFileInformationByHandleEx handle = Option.some info →
      info.FileNameLength ≤ 4080) :
    ∃ b, is_win_console_emulators env handle = Option.some b := by
  unfold is_win_console_emulators
  cases hf : env.GetFileInformationByHandleEx handle with
  | none => exact ⟨false, by simp [get_file_name_by_handle, hf]⟩
  | some info =>
    rw [get_name_success env handle info hf (hwf info hf)]
    exact ⟨_, rfl⟩

/-- C3: a null resolved handle yields `false` at once; a pipe whose name
retrieval fails yields `false`; and (under the documented bound on
reported name lengths) the probe always returns a boolean, never an
error. -/
theorem c3_failures_collapse_to_false (env : WinEnv) (fd : Nat) :
    (env.GetStdHandle fd = 0 → win_isatty env fd = Option.some false) ∧
    (env.GetConsoleMode (env.GetStdHandle fd) = Option.none →
      env.GetFileInformationByHandleEx (env.GetStdHandle fd) = Option.none →
      win_isatty env fd = Option.some false) ∧
    ((∀ info, env.GetFileInformationByHandleEx (env.GetStdHandle fd) =
        Option.some info → info.FileNameLength ≤ 4080) →
      ∃ b, win_isatty env fd = Option.some b) := by
  refine ⟨?_, ?_, ?_⟩
  · intro h
    simp [win_isatty, h]
  · intro hm hf
    by_cases h0 : env.GetStdHandle fd = 0
    · simp [win_isatty, h0]
    · simp [win_isatty, h0, hm, is_win_console_emulators,
        get_file_name_by_handle, hf]
  · intro hwf
    by_cases h0 : env.GetStdHandle fd = 0
    · exact ⟨false, by simp [win_isatty, h0]⟩
    · cases hm : env.GetConsoleMode (env.GetStdHandle fd) with
      | some m =>
        exact ⟨env.SetConsoleMode (env.GetStdHandle fd)
          (m ||| ENABLE_VIRTUAL_TERMINAL_PROCESSING),
          by simp [win_isatty, h0, hm]⟩
      | none =>
        by_cases hp : env.GetFileType (env.GetStdHandle fd) = FILE_TYPE_PIPE
        · obtain ⟨b, hb⟩ :=
            is_win_console_emulators_total env (env.GetStdHandle fd) hwf
          exact ⟨b, by simp [win_isatty, h0, hm, hp, hb]⟩
        · exact ⟨false, by simp [win_isatty, h0, hm, hp]⟩

/-- C3 witness: with no attached console (all queries failing) the probe
answers `false`, and it does answer. -/
theorem c3_failures_collapse_to_false_witness :
    win_isatty envNull STD_ERROR_HANDLE = Option.some false ∧
    ∃ b, win_isatty envNull STD_ERROR_HANDLE = Option.some b := by
  have h := c3_failures_collapse_to_false envNull STD_ERROR_HANDLE
  exact ⟨h.1 rfl, h.2.2 (by intro i hi; cases hi)⟩

/-- C4: when the mode query fails and the file type is not
`FILE_TYPE_PIPE`, the probe returns `false`; the name oracle is
universally quantified, so name retrieval plays no part. -/
theorem c4_nonpipe_redirect_false (env : WinEnv) (fd : Nat)
    (hnz : env.GetStdHandle fd ≠ 0)
    (hm : env.GetConsoleMode (env.GetStdHandle fd) = Option.none)
    (ht : env.GetFileType (env.GetStdHandle fd) ≠ FILE_TYPE_PIPE) :
    win_isatty env fd = Option.some false := by
  simp [win_isatty, hnz, hm, ht]

/-- C4 witness: a disk-file redirection is `false` although its name
oracle would report a ConEmu name. -/
theorem c4_nonpipe_redirect_false_witness :
    win_isatty envFileRedirect STD_OUTPUT_HANDLE = Option.some false :=
  c4_nonpipe_redirect_false envFileRedirect STD_OUTPUT_HANDLE (by decide) rfl
    (by decide)

/-- C6: the unix probe is `true` exactly when `libc::isatty` returns 1,
and `false` on every other return value. -/
theorem c6_unix_probe_exact (env : UnixEnv) (fd : Int) :
    (unix_isatty env fd = true ↔ env.isatty_c fd = 1) ∧
    (env.isatty_c fd ≠ 1 → unix_isatty env fd = false) := by
  constructor
  · simp [unix_isatty]
  · intro h
    simp [unix_isatty, h]

/-- C6 witness: descriptor 1 (a terminal, `isatty` = 1) probes `true`;
descriptor 2 (`isatty` = 0) probes `false`. -/
theorem c6_unix_probe_exact_witness :
    unix_isatty unixEnvSample STDOUT_FILENO = true ∧
    unix_isatty unixEnvSample STDERR_FILENO = false := by
  constructor
  · exact (c6_unix_probe_exact unixEnvSample STDOUT_FILENO).1.mpr (by decide)
  · exact (c6_unix_probe_exact unixEnvSample STDERR_FILENO).2 (by decide)

/-- Helper: a filled stdout cell is returned as-is, without running the
probe. -/
lemma stdout_isatty_cached (probe : Unit → Bool) (st : TtyCache) (v : Bool)
    (h : st.memo_stdout = Option.some v) :
    stdout_isatty probe st = (v, st, 0) := by
  obtain ⟨a, b⟩ := st
  simp only [TtyCache.memo_stdout] at h
  subst h
  rfl

/-- Helper: a filled stderr cell is returned as-is, without running the
probe. -/
lemma stderr_isatty_cached (probe : Unit → Bool) (st : TtyCache) (v : Bool)
    (h : st.memo_stderr = Option.some v) :
    stderr_isatty probe st = (v, st, 0) := by
  obtain ⟨a, b⟩ := st
  simp only [TtyCache.memo_stderr] at h
  subst h
  rfl

/-- Helper: from a state whose stdout cell is filled with `v`, any number
of stdout queries return `v` and never run the probe. -/
lemma run_stdout_cached (probe : Unit → Bool) (n : Nat) (st : TtyCache)
    (v : Bool) (h : st.memo_stdout = Option.some v) :
    run_stdout probe n st = (List.replicate n v, st, 0) := by
  induction n with
  | zero => rfl
  | succ n ih =>
    simp only [run_stdout, stdout_isatty_cached probe st v h, ih,
      List.replicate_succ]

/-- Helper: stderr analogue of `run_stdout_cached`. -/
lemma run_stderr_cached (probe : Unit → Bool) (n : Nat) (st : TtyCache)
    (v : Bool) (h : st.memo_stderr = Option.some v) :
    run_stderr probe n st = (List.replicate n v, st, 0) := by
  induction n with
  | zero => rfl
  | succ n ih =>
    simp only [run_stderr, stderr_isatty_cached probe st v h, ih,
      List.replicate_succ]

/-- C5: starting from the fresh caches, any number of sequential calls of
each query return the same boolean as the first call (the probe's value),
and the probe runs exactly once per stream. -/
theorem c5_memoized_idempotent (probe : Unit → Bool) (n : Nat) :
    (run_stdout probe (n + 1) initCache).1 =
      List.replicate (n + 1) (probe ()) ∧
    (run_stdout probe (n + 1) initCache).2.2 = 1 ∧
    (run_stderr probe (n + 1) initCache).1 =
      List.replicate (n + 1) (probe ()) ∧
    (run_stderr probe (n + 1) initCache).2.2 = 1 := by
  have h1 : stdout_isatty probe initCache =
      (probe (), TtyCache.mk (Option.some (probe ())) Option.none, 1) := rfl
  have h2 : stderr_isatty probe initCache =
      (probe (), TtyCache.mk Option.none (Option.some (probe ())), 1) := rfl
  have r1 := run_stdout_cached probe n
    (TtyCache.mk (Option.some (probe ())) Option.none) (probe ()) rfl
  have r2 := run_stderr_cached probe n
    (TtyCache.mk Option.none (Option.some (probe ()))) (probe ()) rfl
  refine ⟨?_, ?_, ?_, ?_⟩ <;>
    simp [run_stdout, run_stderr, h1, h2, r1, r2, List.replicate_succ]

/-- C9: the stdout query neither reads nor writes the stderr cell and
vice versa — each query's result, probe count, and own cell depend only
on its own cell, and the other cell passes through unchanged. -/
theorem c9_cells_independent (probe : Unit → Bool) (st st' : TtyCache) :
    (stdout_isatty probe st).2.1.memo_stderr = st.memo_stderr ∧
    (stderr_isatty probe st).2.1.memo_stdout = st.memo_stdout ∧
    (st.memo_stdout = st'.memo_stdout →
      (stdout_isatty probe st).1 = (stdout_isatty probe st').1 ∧
      (stdout_isatty probe st).2.1.memo_stdout =
        (stdout_isatty probe st').2.1.memo_stdout ∧
      (stdout_isatty probe st).2.2 = (stdout_isatty probe st').2.2) ∧
    (st.memo_stderr = st'.memo_stderr →
      (stderr_isatty probe st).1 = (stderr_isatty probe st').1 ∧
      (stderr_isatty probe st).2.1.memo_stderr =
        (stderr_isatty probe st').2.1.memo_stderr ∧
      (stderr_isatty probe st).2.2 = (stderr_isatty probe st').2.2) := by
  obtain ⟨a, b⟩ := st
  obtain ⟨c, d⟩ := st'
  refine ⟨rfl, rfl, ?_, ?_⟩
  · intro h
    simp only [TtyCache.memo_stdout] at h
    subst h
    exact ⟨rfl, rfl, rfl⟩
  · intro h
    simp only [TtyCache.memo_stderr] at h
    subst h
    exact ⟨rfl, rfl, rfl⟩

/-- C9 witness: with the stdout cell equal and the stderr cells differing,
the stdout query agrees across the two states and leaves stderr's cell
untouched. -/
theorem c9_cells_independent_witness :
    (stdout_isatty (fun _ => true)
      (TtyCache.mk (Option.some false) Option.none)).2.1.memo_stderr =
      Option.none ∧
    (stdout_isatty (fun _ => true)
      (TtyCache.mk (Option.some false) Option.none)).1 =
    (stdout_isatty (fun _ => true)
      (TtyCache.mk (Option.some false) (Option.some true))).1 := by
  have h := c9_cells_independent (fun _ => true)
    (TtyCache.mk (Option.some false) Option.none)
    (TtyCache.mk (Option.some false) (Option.some true))
  exact ⟨h.1, (h.2.2.1 rfl).1⟩

/-- C7: a successful info query reporting up to 4080 bytes (the full 2040
wide chars) is sliced entirely within the fixed buffer — the character
count is the byte length divided by 2, at most 2040, and the extracted
name has exactly that many entries; moreover, extraction never produces
entries from beyond the buffer for any reported length. -/
theorem c7_slice_within_buffer (env : WinEnv) (handle : Nat)
    (info : FileNameInfo)
    (hf : env.GetFileInformationByHandleEx handle = Option.some info)
    (hlen : info.FileNameLength ≤ 4080) :
    info.FileNameLength / 2 ≤ 2040 ∧
    get_file_name_by_handle env handle =
      NameQuery.name (info.FileName.take (info.FileNameLength / 2)) ∧
    (info.FileName.take (info.FileNameLength / 2)).length =
      info.FileNameLength / 2 ∧
    (∀ i : FileNameInfo,
      (∃ nm, extract_name i = NameQuery.name nm ∧
        nm.length ≤ i.FileName.length) ∨
      extract_name i = NameQuery.oob) := by
  refine ⟨by omega, get_name_success env handle info hf hlen, ?_, ?_⟩
  · rw [List.length_take, info.hbuf]
    omega
  · intro i
    unfold extract_name
    by_cases h : i.FileNameLength / 2 ≤ i.FileName.length
    · refine Or.inl ⟨i.FileName.take (i.FileNameLength / 2), by simp [h], ?_⟩
      rw [List.length_take]
      exact min_le_right _ _
    · exact Or.inr (by simp [h])

/-- C7 witness: the boundary case — a reported length of 4080 bytes on the
2040-WCHAR buffer extracts exactly the whole buffer. -/
theorem c7_slice_within_buffer_witness :
    get_file_name_by_handle envPipeMax 7 =
      NameQuery.name (List.replicate 2040 65) ∧
    (4080 : Nat) / 2 ≤ 2040 := by
  have h := c7_slice_within_buffer envPipeMax 7 infoMax rfl
    (show (4080 : Nat) ≤ 4080 from le_refl 4080)
  refine ⟨?_, by norm_num⟩
  have h2 := h.2.1
  have e1 : infoMax.FileNameLength = 4080 := rfl
  have e2 : infoMax.FileName = List.replicate 2040 65 := rfl
  have e3 : (4080 : Nat) / 2 = 2040 := by norm_num
  rw [e1, e2, e3, List.take_replicate, min_self] at h2
  exact h2

/-- C8: the byte-to-character conversion is integer division by 2, so an
odd reported byte length `2k+1` extracts exactly the same `k` wide
characters as the even length `2k` — the trailing odd byte is discarded. -/
theorem c8_odd_byte_discarded (buf : List Nat) (hb : buf.length = 2040)
    (k : Nat) :
    extract_name (FileNameInfo.mk (2 * k + 1) buf hb) =
      extract_name (FileNameInfo.mk (2 * k) buf hb) ∧
    (k ≤ 2040 →
      extract_name (FileNameInfo.mk (2 * k + 1) buf hb) =
        NameQuery.name (buf.take k) ∧
      (buf.take k).length = k) := by
  have h1 : (2 * k + 1) / 2 = k := by omega
  have h2 : 2 * k / 2 = k := by omega
  constructor
  · simp only [extract_name, h1, h2]
  · intro hk
    have hkb : k ≤ buf.length := by omega
    constructor
    · simp only [extract_name, h1]
      rw [if_pos hkb]
    · rw [List.length_take]
      omega

/-- C8 witness: reported lengths 11 and 10 bytes extract the same 5-char
name from a 2040-entry buffer. -/
theorem c8_odd_byte_discarded_witness :
    extract_name (FileNameInfo.mk 11 (List.replicate 2040 0)
        (len_replicate_2040 0)) =
      extract_name (FileNameInfo.mk 10 (List.replicate 2040 0)
        (len_replicate_2040 0)) ∧
    extract_name (FileNameInfo.mk 11 (List.replicate 2040 0)
        (len_replicate_2040 0)) = NameQuery.name (List.replicate 5 0) := by
  have h := c8_odd_byte_discarded (List.replicate 2040 0)
    (len_replicate_2040 0) 5
  refine ⟨h.1, ?_⟩
  have h2 := (h.2 (by norm_num)).1
  have e1 : (List.replicate 2040 (0 : Nat)).take 5 = List.replicate 5 0 := by
    rw [List.take_replicate]
    congr 1
  rw [e1] at h2
  exact h2

/-- C10: under the OS contract that a successful query's reported length
fits the buffer handed to it, the name helper returns `noName` exactly
when the query fails; every success yields a name, a zero reported length
yields the empty name, and an empty name is classified non-emulator
(`false`). -/
theorem c10_name_query_totality (env : WinEnv) (handle : Nat)
    (hwf : ∀ info, env.GetFileInformationByHandleEx handle =
      Option.some info → info.FileNameLength ≤ 4080) :
    (get_file_name_by_handle env handle = NameQuery.noName ↔
      env.GetFileInformationByHandleEx handle = Option.none) ∧
    (∀ info, env.GetFileInformationByHandleEx handle = Option.some info →
      get_file_name_by_handle env handle =
        NameQuery.name (info.FileName.take (info.FileNameLength / 2)) ∧
      (info.FileNameLength = 0 →
        get_file_name_by_handle env handle = NameQuery.name [])) ∧
    (get_file_name_by_handle env handle = NameQuery.name [] →
      is_win_console_emulators env handle = Option.some false) := by
  refine ⟨?_, ?_, ?_⟩
  · cases hf : env.GetFileInformationByHandleEx handle with
    | none => simp [get_file_name_by_handle, hf]
    | some info =>
      rw [get_name_success env handle info hf (hwf info hf)]
      simp
  · intro info hf
    have h := get_name_success env handle info hf (hwf info hf)
    refine ⟨h, fun h0 => ?_⟩
    rw [h, h0]
    simp
  · intro h
    unfold is_win_console_emulators
    rw [h]
    rfl

/-- C10 witness: a pipe whose successful query reports a zero-length name
yields the empty name and is classified non-interactive; a failed query
yields `noName`. -/
theorem c10_name_query_totality_witness :
    get_file_name_by_handle envPipeEmpty 7 = NameQuery.name [] ∧
    is_win_console_emulators envPipeEmpty 7 = Option.some false ∧
    get_file_name_by_handle envPipeNoName 7 = NameQuery.noName := by
  have h := c10_name_query_totality envPipeEmpty 7
    (by intro i hi
        have : infoEmpty = i := by
          simpa [envPipeEmpty] using hi
        rw [← this]
        norm_num [infoEmpty])
  have hn := (h.2.1 infoEmpty rfl).2 rfl
  have h2 := c10_name_query_totality envPipeNoName 7 (by intro i hi; cases hi)
  exact ⟨hn, h.2.2 hn, h2.1.mpr rfl⟩
